import Mathlib

/-!
Shallow embedding of the babysql fluent SQL builder (src/index.ts) and
verification of its specified properties.

The builder accumulates clause state and a terminal `build` renders a
parameterized SQL string plus an ordered parameter list.  JavaScript
specifics that matter here are modelled explicitly: `Object.keys`
enumeration order (array-index keys first, ascending, then string keys in
insertion order), and the `n | 0` coercion (ToInt32: truncate toward zero,
then wrap modulo 2^32 into the signed 32-bit range).  JS numbers are
modelled as rationals.
-/

/-- The five statement kinds (`QueryType` in the source). -/
inductive QueryType
  | select
  | count
  | insert
  | update
  | delete
deriving DecidableEq

/-- `OrderDirection` in the source: the strings ASC / DESC. -/
inductive OrderDirection
  | asc
  | desc
deriving DecidableEq

/-- Rendering of an order direction back to its source string. -/
def OrderDirection.render : OrderDirection → String
  | .asc => "ASC"
  | .desc => "DESC"

/-- Scalar parameter values (`Primitive` in the source):
string, number, boolean, Date (opaque timestamp), null. -/
inductive Primitive
  | str : String → Primitive
  | num : ℚ → Primitive
  | bool : Bool → Primitive
  | date : Int → Primitive
  | null : Primitive
deriving DecidableEq

/-- Predicate connectors: the literal union `'AND' | 'OR'` in the source. -/
inductive Connector
  | and
  | or
deriving DecidableEq

/-- Rendering of a connector back to its source string. -/
def Connector.render : Connector → String
  | .and => "AND"
  | .or => "OR"

/-- `WhereOperator` in the source: the closed union of operator strings. -/
inductive WhereOperator
  | eq
  | bangEq
  | ltGt
  | gt
  | ge
  | lt
  | le
  | like
  | notLike
  | isOp
  | isNotOp
deriving DecidableEq

/-- Rendering of a where-operator back to its source string. -/
def WhereOperator.render : WhereOperator → String
  | .eq => "="
  | .bangEq => "!="
  | .ltGt => "<>"
  | .gt => ">"
  | .ge => ">="
  | .lt => "<"
  | .le => "<="
  | .like => "LIKE"
  | .notLike => "NOT LIKE"
  | .isOp => "IS"
  | .isNotOp => "IS NOT"

/-- The LIKE wrapping mode of `whereLike`. -/
inductive LikeMode
  | both
  | left
  | right
deriving DecidableEq

/-- One entry of `_wheres`: `{ sql, params, connector }`. -/
structure WhereFrag where
  sql : String
  params : List Primitive
  connector : Connector
deriving DecidableEq

/-- The output pair `BuiltQuery` of the source. -/
structure BuiltQuery where
  sql : String
  params : List Primitive
deriving DecidableEq

/-- The two render-time error kinds of the source (`throw new Error(...)`
in `build`): missing data payload for insert/update, and the unsafe
update/delete guard. -/
inductive BuildError
  | missingPayload
  | unsafeStatement
deriving DecidableEq

/-- The builder state: the private fields of `BabySQLBuilder`. -/
structure Builder where
  type : QueryType
  table : String
  _columns : List String
  _data : Option (List (String × Primitive))
  _wheres : List WhereFrag
  _order : List (String × OrderDirection)
  _limit : Option Int
  _offset : Option Int
  _countColumn : String
  _countAlias : String
  _allowUnsafe : Bool
  _debug : Bool

/-- The constructor `new BabySQLBuilder(type, table)` with the field
initializers of the class body. -/
def newBuilder (t : QueryType) (table : String) : Builder :=
  { type := t
    table := table
    _columns := []
    _data := none
    _wheres := []
    _order := []
    _limit := none
    _offset := none
    _countColumn := "*"
    _countAlias := "total"
    _allowUnsafe := false
    _debug := false }

namespace BabySQL

/-- `BabySQL.select(table)`. -/
def select (table : String) : Builder := newBuilder QueryType.select table

/-- `BabySQL.count(table)`. -/
def count (table : String) : Builder := newBuilder QueryType.count table

/-- `BabySQL.insert(table)`. -/
def insert (table : String) : Builder := newBuilder QueryType.insert table

/-- `BabySQL.update(table)`. -/
def update (table : String) : Builder := newBuilder QueryType.update table

/-- `BabySQL.delete(table)`. -/
def delete (table : String) : Builder := newBuilder QueryType.delete table

end BabySQL

/-- `Array.prototype.join(sep)` on a list of strings. -/
def joinSep (sep : String) : List String → String
  | [] => ""
  | [x] => x
  | x :: y :: xs => x ++ sep ++ joinSep sep (y :: xs)

/-- Plain concatenation of a list of strings (no separator). -/
def strJoin : List String → String
  | [] => ""
  | x :: xs => x ++ strJoin xs

/-- Concatenation of a list of parameter lists (the repeated
`params.push(...)` of the render loop, in order). -/
def concatAll : List (List Primitive) → List Primitive
  | [] => []
  | l :: ls => l ++ concatAll ls

/-- ECMAScript array-index test: a string is an array index iff it is the
canonical decimal representation of an integer in `[0, 2^32 - 1)` (digits
only, no leading zero except "0" itself).  Returns that integer. -/
def canonIndex (s : String) : Option Nat :=
  let cs := s.data
  if (!cs.isEmpty) && cs.all Char.isDigit && (cs.head? != some '0' || cs == ['0']) then
    let n := cs.foldl (fun acc c => acc * 10 + (c.toNat - 48)) 0
    if n < 4294967295 then some n else none
  else none

/-- Insert one keyed entry into a list sorted ascending by the key. -/
def insertSorted (x : Nat × String) : List (Nat × String) → List (Nat × String)
  | [] => [x]
  | y :: ys => if x.1 < y.1 then x :: y :: ys else y :: insertSorted x ys

/-- Insertion sort by the numeric key, ascending. -/
def sortIdx (l : List (Nat × String)) : List (Nat × String) :=
  l.foldr insertSorted []

/-- `Object.keys` on an own-property table: array-index keys first in
ascending numeric order, then the remaining string keys in insertion
order (the ECMAScript OrdinaryOwnPropertyKeys order restricted to string
keys). -/
def jsKeys (d : List (String × Primitive)) : List String :=
  let idx := d.filterMap (fun p => (canonIndex p.1).map (fun n => (n, p.1)))
  let rest := (d.filter (fun p => (canonIndex p.1).isNone)).map Prod.fst
  (sortIdx idx).map Prod.snd ++ rest

/-- Property lookup `obj[k]` on an own-property table (first entry with
the key; keys of a JS object are unique). -/
def jsGet (d : List (String × Primitive)) (k : String) : Primitive :=
  match d.find? (fun p => p.1 == k) with
  | some p => p.2
  | none => Primitive.null

/-- Truncation of a rational toward zero (the implicit first step of the
ToInt32 conversion performed by `n | 0`). -/
def ratTrunc (q : ℚ) : Int := Int.tdiv q.num (q.den : Int)

/-- ToInt32 on an integer: reduce modulo 2^32 into `[0, 2^32)`, then map
the upper half down into the signed range. -/
def toInt32 (i : Int) : Int :=
  let m := i % 4294967296
  if 2147483648 ≤ m then m - 4294967296 else m

/-- The JavaScript expression `n | 0` on a (finite) number `n`. -/
def jsBitOrZero (n : ℚ) : Int := toInt32 (ratTrunc n)

namespace Builder

/-- `countColumn(col, alias)`. -/
def countColumn (b : Builder) (col : String) (aliasName : String) : Builder :=
  { b with _countColumn := col, _countAlias := aliasName }

/-- `data(obj)`: stores a shallow copy of the payload object.  The list
represents the object's own-property table in property-creation order
(keys unique). -/
def data (b : Builder) (obj : List (String × Primitive)) : Builder :=
  { b with _data := some obj }

/-- `columns(cols)` with a list argument. -/
def columns (b : Builder) (cols : List String) : Builder :=
  { b with _columns := cols }

/-- `columns(col)` with a single string argument. -/
def columnsOne (b : Builder) (col : String) : Builder :=
  { b with _columns := [col] }

/-- `where(column, op, value, connector)`. -/
def where_ (b : Builder) (column : String) (op : WhereOperator)
    (value : Primitive) (connector : Connector) : Builder :=
  { b with _wheres := b._wheres ++
      [{ sql := column ++ (" ") ++ op.render ++ (" ?")
         params := [value]
         connector := connector }] }

/-- `whereLike(column, value, mode, connector)`. -/
def whereLike (b : Builder) (column : String) (value : String)
    (mode : LikeMode) (connector : Connector) : Builder :=
  let val : String :=
    match mode with
    | .both => ("%") ++ value ++ ("%")
    | .left => ("%") ++ value
    | .right => value ++ ("%")
  { b with _wheres := b._wheres ++
      [{ sql := column ++ (" LIKE ?")
         params := [Primitive.str val]
         connector := connector }] }

/-- `whereIn(column, values, connector)`. -/
def whereIn (b : Builder) (column : String) (values : List Primitive)
    (connector : Connector) : Builder :=
  if values.length = 0 then
    { b with _wheres := b._wheres ++
        [{ sql := ("1=0"), params := [], connector := connector }] }
  else
    let placeholders := joinSep (", ") (values.map (fun _ => ("?")))
    { b with _wheres := b._wheres ++
        [{ sql := column ++ (" IN (") ++ placeholders ++ (")")
           params := values
           connector := connector }] }

/-- `whereRaw(sql, params, connector)`. -/
def whereRaw (b : Builder) (sql : String) (params : List Primitive)
    (connector : Connector) : Builder :=
  { b with _wheres := b._wheres ++
      [{ sql := ("(") ++ sql ++ (")"), params := params, connector := connector }] }

/-- `orderBy(column, dir)`. -/
def orderBy (b : Builder) (column : String) (dir : OrderDirection) : Builder :=
  { b with _order := b._order ++ [(column, dir)] }

/-- `limit(n)`: stores `Math.max(0, n | 0)`. -/
def limit (b : Builder) (n : ℚ) : Builder :=
  { b with _limit := some (max 0 (jsBitOrZero n)) }

/-- `offset(n)`: stores `Math.max(0, n | 0)`. -/
def offset (b : Builder) (n : ℚ) : Builder :=
  { b with _offset := some (max 0 (jsBitOrZero n)) }

/-- `paginate(page, pageSize)`. -/
def paginate (b : Builder) (page : ℚ) (pageSize : ℚ) : Builder :=
  let p := max 1 (jsBitOrZero page)
  let size := max 1 (jsBitOrZero pageSize)
  { b with _limit := some size, _offset := some ((p - 1) * size) }

/-- `debug(enable)`. -/
def debug (b : Builder) (enable : Bool) : Builder :=
  { b with _debug := enable }

/-- `allowUnsafe()`. -/
def allowUnsafe (b : Builder) : Builder :=
  { b with _allowUnsafe := true }

end Builder

/-- The statement-head section of `build` (the five type branches at the
top, including the two render-time error checks).  Returns the head SQL
and the parameters pushed so far. -/
def buildHead (b : Builder) : Except BuildError (String × List Primitive) :=
  if b.type = QueryType.select then
    let cols := if b._columns.length ≠ 0 then joinSep (", ") b._columns else ("*")
    Except.ok (("SELECT ") ++ cols ++ (" FROM ") ++ b.table, [])
  else if b.type = QueryType.count then
    Except.ok (("SELECT COUNT(") ++ b._countColumn ++ (") AS ") ++ b._countAlias
      ++ (" FROM ") ++ b.table, [])
  else if b.type = QueryType.insert then
    match b._data with
    | none => Except.error BuildError.missingPayload
    | some d =>
      let keys := jsKeys d
      let placeholders := joinSep (", ") (keys.map (fun _ => ("?")))
      Except.ok (("INSERT INTO ") ++ b.table ++ (" (") ++ joinSep (", ") keys
        ++ (") VALUES (") ++ placeholders ++ (")"),
        keys.map (fun k => jsGet d k))
  else if b.type = QueryType.update then
    match b._data with
    | none => Except.error BuildError.missingPayload
    | some d =>
      if b._wheres.length = 0 ∧ b._allowUnsafe = false then
        Except.error BuildError.unsafeStatement
      else
        let keys := jsKeys d
        let sets := joinSep (", ") (keys.map (fun k => k ++ (" = ?")))
        Except.ok (("UPDATE ") ++ b.table ++ (" SET ") ++ sets,
          keys.map (fun k => jsGet d k))
  else
    if b._wheres.length = 0 ∧ b._allowUnsafe = false then
      Except.error BuildError.unsafeStatement
    else
      Except.ok (("DELETE FROM ") ++ b.table, [])

/-- The `parts` list of the WHERE loop: the first fragment's SQL verbatim,
every later fragment as `<connector> <sql>`. -/
def whereParts : List WhereFrag → List String
  | [] => []
  | w :: rest => w.sql :: rest.map (fun v => v.connector.render ++ (" ") ++ v.sql)

/-- The WHERE section of `build`: empty when there are no fragments,
otherwise ` WHERE ` followed by the parts joined by single spaces. -/
def whereClause (ws : List WhereFrag) : String :=
  if ws.length > 0 then (" WHERE ") ++ joinSep (" ") (whereParts ws) else ("")

/-- The parameters pushed by the WHERE loop, in fragment order. -/
def whereParamsOf (ws : List WhereFrag) : List Primitive :=
  concatAll (ws.map (fun w => w.params))

/-- The ORDER BY section of `build` (only for select with a non-empty
order list). -/
def orderClause (b : Builder) : String :=
  if b._order.length ≠ 0 ∧ b.type = QueryType.select then
    (" ORDER BY ") ++ joinSep (", ")
      (b._order.map (fun o => o.1 ++ (" ") ++ o.2.render))
  else ("")

/-- The LIMIT/OFFSET section of `build` (skipped for count): the appended
SQL text and the parameters pushed. -/
def ltail (b : Builder) : String × List Primitive :=
  if b.type ≠ QueryType.count then
    match b._limit, b._offset with
    | some l, some o =>
      ((" LIMIT ?") ++ (" OFFSET ?"), [Primitive.num (l : ℚ), Primitive.num (o : ℚ)])
    | some l, none => ((" LIMIT ?"), [Primitive.num (l : ℚ)])
    | none, some o => ((" OFFSET ?"), [Primitive.num (o : ℚ)])
    | none, none => ((""), [])
  else ((""), [])

/-- Rendering of one primitive for the debug diagnostic line (the exact
formatting is not part of the compatibility surface). -/
def primShow : Primitive → String
  | .str s => s
  | .num q => toString q.num ++ ("/") ++ toString q.den
  | .bool true => "true"
  | .bool false => "false"
  | .date i => toString i
  | .null => "null"

/-- The two `console.log` diagnostic lines emitted when the debug flag is
set. -/
def debugLines (q : BuiltQuery) : List String :=
  [("[BabySQL DEBUG] SQL: ") ++ q.sql,
   ("[BabySQL DEBUG] PARAMS: ") ++ ("[") ++ joinSep (", ") (q.params.map primShow) ++ ("]")]

/-- The tail assembly of `build` after the statement head: for every kind
except insert, append the WHERE section, then the ORDER BY section, then
the LIMIT/OFFSET section, accumulating their parameters in that order. -/
def buildAssemble (b : Builder) (sp : String × List Primitive) : BuiltQuery :=
  if b.type ≠ QueryType.insert then
    let s1 := sp.1 ++ whereClause b._wheres
    let p1 := sp.2 ++ whereParamsOf b._wheres
    let s2 := s1 ++ orderClause b
    let t := ltail b
    { sql := s2 ++ t.1, params := p1 ++ t.2 }
  else
    { sql := sp.1, params := sp.2 }

/-- The full `build()` method: result (or thrown error), the diagnostic
lines emitted, and the builder state afterwards (`build` assigns to no
field of `this`, so the state returned is the receiver). -/
def Builder.buildFull (b : Builder) :
    Except BuildError BuiltQuery × List String × Builder :=
  match buildHead b with
  | Except.error e => (Except.error e, [], b)
  | Except.ok sp =>
    let q : BuiltQuery := buildAssemble b sp
    let logs := if b._debug then debugLines q else []
    (Except.ok q, logs, b)

/-- The value `build()` returns (or the error it throws). -/
def Builder.build (b : Builder) : Except BuildError BuiltQuery :=
  (b.buildFull).1

/-- Number of positional placeholder tokens occurring in a SQL string. -/
def countQ (s : String) : Nat := s.data.count '?'

/-- The string contains no placeholder token. -/
def qFreeB (s : String) : Bool := countQ s == 0

/-- A valid builder configuration for the alignment invariant: none of the
identifier strings entering the SQL text (table, columns, count
projection, order columns, payload keys) contains a stray `?`, and every
stored predicate fragment is itself aligned (its SQL holds exactly one
`?` per parameter).  Fragments made by `where_`, `whereLike` and
`whereIn` on `?`-free columns are aligned by construction; `whereRaw`
alignment is the caller's responsibility, per the spec. -/
def validConfigB (b : Builder) : Bool :=
  qFreeB b.table && b._columns.all qFreeB && qFreeB b._countColumn &&
  qFreeB b._countAlias && b._order.all (fun o => qFreeB o.1) &&
  b._wheres.all (fun w => countQ w.sql == w.params.length) &&
  (match b._data with
   | none => true
   | some d => d.all (fun p => qFreeB p.1))

/-- The MissingPayload condition of the spec: rendering insert or update
without a prior data payload. -/
def missingPayloadCond (b : Builder) : Prop :=
  (b.type = QueryType.insert ∨ b.type = QueryType.update) ∧ b._data = none

/-- The UnsafeStatement condition of the spec: rendering update or delete
with an empty predicate list and the unsafe flag not set. -/
def unsafeCond (b : Builder) : Prop :=
  (b.type = QueryType.update ∨ b.type = QueryType.delete) ∧
    b._wheres = [] ∧ b._allowUnsafe = false

/-- Modelled from the spec wording of render step 2: the first fragment's
SQL verbatim (its connector ignored), then each subsequent fragment as
` <connector> <fragment SQL>`. -/
def specWhereClause : List WhereFrag → String
  | [] => ""
  | w :: rest =>
    w.sql ++ strJoin (rest.map (fun v => (" ") ++ v.connector.render ++ (" ") ++ v.sql))

/-- Does the character list start with the given pattern? -/
def startsWithSub : List Char → List Char → Bool
  | _, [] => true
  | [], _ :: _ => false
  | h :: t, n :: m => (h == n) && startsWithSub t m

/-- Does the character list contain the pattern as a contiguous run? -/
def hasSub : List Char → List Char → Bool
  | [], nee => nee.isEmpty
  | h :: t, nee => startsWithSub (h :: t) nee || hasSub t nee

/-! ## Helper lemmas -/

theorem countQ_append (a b : String) : countQ (a ++ b) = countQ a + countQ b := by
  simp [countQ, String.data_append, List.count_append]

theorem connector_render_qfree (c : Connector) : countQ c.render = 0 := by
  cases c <;> decide

theorem direction_render_qfree (d : OrderDirection) : countQ d.render = 0 := by
  cases d <;> decide

theorem countQ_joinSep_zero (sep : String) (hsep : countQ sep = 0) :
    ∀ l : List String, (∀ s ∈ l, countQ s = 0) → countQ (joinSep sep l) = 0 := by
  intro l
  induction l with
  | nil => intro _; rfl
  | cons x xs ih =>
    cases xs with
    | nil => intro h; simpa [joinSep] using h x (by simp)
    | cons y ys =>
      intro h
      have hx : countQ x = 0 := h x (by simp)
      have hrest : ∀ s ∈ y :: ys, countQ s = 0 := by
        intro s hs; exact h s (by simp [hs])
      calc countQ (joinSep sep (x :: y :: ys))
          = countQ ((x ++ sep) ++ joinSep sep (y :: ys)) := rfl
        _ = countQ x + countQ sep + countQ (joinSep sep (y :: ys)) := by
            rw [countQ_append, countQ_append]
        _ = 0 := by rw [hx, hsep, ih hrest]

theorem countQ_joinSep_one (sep : String) (hsep : countQ sep = 0)
    (g : String → String) :
    ∀ l : List String, (∀ s ∈ l, countQ (g s) = 1) →
      countQ (joinSep sep (l.map g)) = l.length := by
  intro l
  induction l with
  | nil => intro _; rfl
  | cons x xs ih =>
    cases xs with
    | nil => intro h; simpa [joinSep] using h x (by simp)
    | cons y ys =>
      intro h
      have hx : countQ (g x) = 1 := h x (by simp)
      have hrest : ∀ s ∈ y :: ys, countQ (g s) = 1 := by
        intro s hs; exact h s (by simp [hs])
      calc countQ (joinSep sep (g x :: (y :: ys).map g))
          = countQ ((g x ++ sep) ++ joinSep sep ((y :: ys).map g)) := rfl
        _ = countQ (g x) + countQ sep + countQ (joinSep sep ((y :: ys).map g)) := by
            rw [countQ_append, countQ_append]
        _ = (x :: y :: ys).length := by
            rw [hx, hsep, ih hrest]; simp; omega

theorem concatAll_length :
    ∀ ls : List (List Primitive),
      (concatAll ls).length = (ls.map List.length).sum := by
  intro ls
  induction ls with
  | nil => rfl
  | cons l ls ih => simp [concatAll, ih]

theorem whereJoin_count :
    ∀ (rest : List WhereFrag) (x : String) (nx : Nat), countQ x = nx →
      (∀ w ∈ rest, countQ w.sql = w.params.length) →
      countQ (joinSep (" ")
        (x :: rest.map (fun v => v.connector.render ++ (" ") ++ v.sql)))
        = nx + (concatAll (rest.map (fun w => w.params))).length := by
  intro rest
  induction rest with
  | nil =>
    intro x nx hx _
    simpa [joinSep, concatAll] using hx
  | cons w rs ih =>
    intro x nx hx h
    have hw : countQ w.sql = w.params.length := h w (by simp)
    have hrs : ∀ v ∈ rs, countQ v.sql = v.params.length := by
      intro v hv; exact h v (by simp [hv])
    have hfw : countQ (w.connector.render ++ (" ") ++ w.sql) = w.params.length := by
      rw [countQ_append, countQ_append, connector_render_qfree, hw]
      have h0 : countQ (" ") = 0 := rfl
      omega
    calc countQ (joinSep (" ")
          (x :: (w :: rs).map (fun v => v.connector.render ++ (" ") ++ v.sql)))
        = countQ ((x ++ (" ")) ++ joinSep (" ")
            ((w.connector.render ++ (" ") ++ w.sql)
              :: rs.map (fun v => v.connector.render ++ (" ") ++ v.sql))) := rfl
      _ = countQ x + countQ (" ") + countQ (joinSep (" ")
            ((w.connector.render ++ (" ") ++ w.sql)
              :: rs.map (fun v => v.connector.render ++ (" ") ++ v.sql))) := by
          rw [countQ_append, countQ_append]
      _ = nx + (concatAll ((w :: rs).map (fun v => v.params))).length := by
          have hih := ih (w.connector.render ++ (" ") ++ w.sql) w.params.length hfw hrs
          have h0 : countQ (" ") = 0 := rfl
          rw [hx, hih, h0]
          simp [concatAll]

theorem whereClause_count (ws : List WhereFrag)
    (h : ∀ w ∈ ws, countQ w.sql = w.params.length) :
    countQ (whereClause ws) = (whereParamsOf ws).length := by
  cases ws with
  | nil => decide
  | cons w rest =>
    have hw : countQ w.sql = w.params.length := h w (by simp)
    have hrest : ∀ v ∈ rest, countQ v.sql = v.params.length := by
      intro v hv; exact h v (by simp [hv])
    have hlen : (w :: rest).length > 0 := by simp
    rw [whereClause, if_pos hlen, whereParts, countQ_append,
      whereJoin_count rest w.sql w.params.length hw hrest]
    have h0 : countQ (" WHERE ") = 0 := rfl
    simp [whereParamsOf, concatAll, h0]

theorem orderClause_count (b : Builder) (h : ∀ o ∈ b._order, countQ o.1 = 0) :
    countQ (orderClause b) = 0 := by
  unfold orderClause
  by_cases hc : b._order.length ≠ 0 ∧ b.type = QueryType.select
  · rw [if_pos hc, countQ_append]
    have hj : countQ (joinSep (", ")
        (b._order.map (fun o => o.1 ++ (" ") ++ o.2.render))) = 0 := by
      apply countQ_joinSep_zero (", ") rfl
      intro s hs
      rcases List.mem_map.mp hs with ⟨o, ho, rfl⟩
      rw [countQ_append, countQ_append, h o ho, direction_render_qfree]
      rfl
    rw [hj]
    rfl
  · rw [if_neg hc]
    rfl

theorem ltail_count (b : Builder) : countQ (ltail b).1 = (ltail b).2.length := by
  unfold ltail
  by_cases hc : b.type ≠ QueryType.count
  · rw [if_pos hc]
    rcases hl : b._limit with _ | l <;> rcases ho : b._offset with _ | o <;> simp <;> rfl
  · rw [if_neg hc]
    rfl

theorem mem_insertSorted {x a : Nat × String} :
    ∀ {l : List (Nat × String)}, a ∈ insertSorted x l ↔ a = x ∨ a ∈ l := by
  intro l
  induction l with
  | nil => simp [insertSorted]
  | cons y ys ih =>
    by_cases hlt : x.1 < y.1
    · simp [insertSorted, hlt]
    · simp [insertSorted, hlt, ih]
      tauto

theorem mem_sortIdx {a : Nat × String} :
    ∀ {l : List (Nat × String)}, a ∈ sortIdx l ↔ a ∈ l := by
  intro l
  induction l with
  | nil => simp [sortIdx]
  | cons y ys ih =>
    have hstep : sortIdx (y :: ys) = insertSorted y (sortIdx ys) := rfl
    rw [hstep, mem_insertSorted]
    simp [ih]

theorem jsKeys_mem {d : List (String × Primitive)} {k : String}
    (h : k ∈ jsKeys d) : ∃ p ∈ d, p.1 = k := by
  unfold jsKeys at h
  rcases List.mem_append.mp h with hl | hr
  · rcases List.mem_map.mp hl with ⟨pr, hpr, rfl⟩
    rcases List.mem_filterMap.mp (mem_sortIdx.mp hpr) with ⟨p, hp, hf⟩
    rcases Option.map_eq_some'.mp hf with ⟨n, _, hn⟩
    exact ⟨p, hp, by rw [← hn]⟩
  · rcases List.mem_map.mp hr with ⟨p, hp, rfl⟩
    exact ⟨p, (List.mem_filter.mp hp).1, rfl⟩

theorem jsKeys_no_index {d : List (String × Primitive)}
    (h : ∀ p ∈ d, canonIndex p.1 = none) : jsKeys d = d.map Prod.fst := by
  unfold jsKeys
  have h1 : d.filterMap (fun p => (canonIndex p.1).map (fun n => (n, p.1))) = [] := by
    rw [List.filterMap_eq_nil_iff]
    intro p hp
    rw [h p hp]
    rfl
  have h2 : d.filter (fun p => (canonIndex p.1).isNone) = d := by
    rw [List.filter_eq_self]
    intro p hp
    rw [h p hp]
    rfl
  rw [h1, h2]
  rfl

theorem map_jsGet {d : List (String × Primitive)}
    (hnd : (d.map Prod.fst).Nodup) :
    (d.map Prod.fst).map (fun k => jsGet d k) = d.map Prod.snd := by
  induction d with
  | nil => rfl
  | cons p rest ih =>
    have hnd2 : (p.1 :: rest.map Prod.fst).Nodup := by simpa using hnd
    rcases List.nodup_cons.mp hnd2 with ⟨hni, hnd'⟩
    have hhead : jsGet (p :: rest) p.1 = p.2 := by
      simp [jsGet, List.find?]
    have htail : ∀ k ∈ rest.map Prod.fst,
        jsGet (p :: rest) k = jsGet rest k := by
      intro k hk
      have hne : ¬ (p.1 == k) = true := by
        intro hb
        rw [show p.1 = k from beq_iff_eq.mp hb] at hni
        exact hni hk
      simp [jsGet, List.find?, hne]
    calc ((p :: rest).map Prod.fst).map (fun k => jsGet (p :: rest) k)
        = p.2 :: (rest.map Prod.fst).map (fun k => jsGet (p :: rest) k) := by
          simp [hhead]
      _ = p.2 :: (rest.map Prod.fst).map (fun k => jsGet rest k) := by
          congr 1
          exact List.map_congr_left htail
      _ = (p :: rest).map Prod.snd := by
          rw [ih hnd']
          rfl

theorem buildFull_ok (b : Builder) (sp : String × List Primitive)
    (hh : buildHead b = Except.ok sp) :
    b.buildFull = (Except.ok (buildAssemble b sp),
      (if b._debug then debugLines (buildAssemble b sp) else []), b) := by
  unfold Builder.buildFull
  rw [hh]

theorem buildFull_error (b : Builder) (e : BuildError)
    (hh : buildHead b = Except.error e) :
    b.buildFull = (Except.error e, [], b) := by
  unfold Builder.buildFull
  rw [hh]

theorem build_ok (b : Builder) (sp : String × List Primitive)
    (hh : buildHead b = Except.ok sp) :
    b.build = Except.ok (buildAssemble b sp) := by
  unfold Builder.build
  rw [buildFull_ok b sp hh]

theorem countQ_joinSep_replicate :
    ∀ n : Nat, countQ (joinSep (", ") (List.replicate n ("?"))) = n := by
  intro n
  induction n with
  | zero => rfl
  | succ m ih =>
    cases m with
    | zero => rfl
    | succ k =>
      rw [List.replicate_succ] at ih ⊢
      rw [List.replicate_succ]
      rw [show joinSep (", ") (("?") :: ("?") :: List.replicate k ("?"))
          = (("?") ++ (", ")) ++ joinSep (", ") (("?") :: List.replicate k ("?")) from rfl]
      rw [countQ_append, countQ_append, ih]
      have hq : countQ ("?") = 1 := rfl
      have hc : countQ (", ") = 0 := rfl
      omega

theorem buildHead_count (b : Builder) (hv : validConfigB b = true)
    (sp : String × List Primitive) (h : buildHead b = Except.ok sp) :
    countQ sp.1 = sp.2.length := by
  simp only [validConfigB, Bool.and_eq_true, List.all_eq_true, qFreeB,
    beq_iff_eq] at hv
  obtain ⟨⟨⟨⟨⟨⟨htab, hcols⟩, hcc⟩, hca⟩, hord⟩, hwh⟩, hdata⟩ := hv
  have hSELECT : countQ ("SELECT ") = 0 := rfl
  have hFROM : countQ (" FROM ") = 0 := rfl
  cases ht : b.type
  case select =>
    simp only [buildHead, ht, reduceCtorEq, reduceIte, ite_true, ite_false,
      Except.ok.injEq] at h
    subst h
    by_cases hcl : b._columns.length ≠ 0
    · have hJ := countQ_joinSep_zero (", ") rfl _ hcols
      rw [if_pos hcl]
      simp [countQ_append, hSELECT, hFROM, htab, hJ]
    · rw [if_neg hcl]
      have hstar : countQ ("*") = 0 := rfl
      simp [countQ_append, hSELECT, hFROM, htab, hstar]
      rfl
  case count =>
    simp only [buildHead, ht, reduceCtorEq, reduceIte, ite_true, ite_false,
      Except.ok.injEq] at h
    subst h
    have h1 : countQ ("SELECT COUNT(") = 0 := rfl
    have h2 : countQ (") AS ") = 0 := rfl
    simp [countQ_append, htab, hcc, hca, h1, h2, hFROM]
  case insert =>
    rcases hd : b._data with _ | d
    · simp [buildHead, ht, hd] at h
    · rw [hd] at hdata
      simp only [List.all_eq_true, beq_iff_eq] at hdata
      simp only [buildHead, ht, hd, reduceCtorEq, reduceIte, ite_true,
        ite_false, Except.ok.injEq] at h
      subst h
      have hkeys : ∀ k ∈ jsKeys d, countQ k = 0 := by
        intro k hk
        rcases jsKeys_mem hk with ⟨p, hp, rfl⟩
        exact hdata p hp
      have hJ : countQ (joinSep (", ") (jsKeys d)) = 0 :=
        countQ_joinSep_zero (", ") rfl _ hkeys
      have hP : countQ (joinSep (", ") ((jsKeys d).map (fun _ => ("?"))))
          = (jsKeys d).length :=
        countQ_joinSep_one (", ") rfl _ _ (fun s _ => rfl)
      have h1 : countQ ("INSERT INTO ") = 0 := rfl
      have h2 : countQ (" (") = 0 := rfl
      have h3 : countQ (") VALUES (") = 0 := rfl
      have h4 : countQ (")") = 0 := rfl
      simp [countQ_append, htab, hJ, hP, countQ_joinSep_replicate, h1, h2, h3, h4]
  case update =>
    rcases hd : b._data with _ | d
    · simp [buildHead, ht, hd] at h
    · rw [hd] at hdata
      simp only [List.all_eq_true, beq_iff_eq] at hdata
      by_cases hu : b._wheres.length = 0 ∧ b._allowUnsafe = false
      · simp [buildHead, ht, hd, hu] at h
      · simp only [buildHead, ht, hd, hu, reduceCtorEq, reduceIte, ite_true,
          ite_false, Except.ok.injEq] at h
        subst h
        have hS : countQ (joinSep (", ")
            ((jsKeys d).map (fun k => k ++ (" = ?")))) = (jsKeys d).length := by
          apply countQ_joinSep_one (", ") rfl
          intro s hs
          rw [countQ_append]
          rcases jsKeys_mem hs with ⟨p, hp, rfl⟩
          rw [hdata p hp]
          rfl
        have h1 : countQ ("UPDATE ") = 0 := rfl
        have h2 : countQ (" SET ") = 0 := rfl
        simp [countQ_append, htab, hS, h1, h2]
  case delete =>
    by_cases hu : b._wheres.length = 0 ∧ b._allowUnsafe = false
    · simp [buildHead, ht, hu] at h
    · simp only [buildHead, ht, hu, reduceCtorEq, reduceIte, ite_true,
        ite_false, Except.ok.injEq] at h
      subst h
      have h1 : countQ ("DELETE FROM ") = 0 := rfl
      simp [countQ_append, htab, h1]

/-- Claim C1: for every valid builder configuration, the rendered output
is aligned: the number of entries in `params` equals the number of `?`
placeholder tokens occurring in `sql` (and the correspondence is
positional by construction of the parameter list). -/
theorem render_placeholder_alignment (b : Builder) (q : BuiltQuery)
    (hv : validConfigB b = true) (hq : b.build = Except.ok q) :
    countQ q.sql = q.params.length := by
  rcases hh : buildHead b with e | sp
  · rw [Builder.build, buildFull_error b e hh] at hq
    simp at hq
  · have h0 : countQ sp.1 = sp.2.length := buildHead_count b hv sp hh
    rw [build_ok b sp hh] at hq
    simp only [Except.ok.injEq] at hq
    subst hq
    simp only [validConfigB, Bool.and_eq_true, List.all_eq_true, qFreeB,
      beq_iff_eq] at hv
    obtain ⟨⟨⟨⟨⟨⟨htab, hcols⟩, hcc⟩, hca⟩, hord⟩, hwh⟩, hdata⟩ := hv
    have hwc : countQ (whereClause b._wheres) = (whereParamsOf b._wheres).length :=
      whereClause_count _ hwh
    have hoc : countQ (orderClause b) = 0 := orderClause_count b hord
    have hlt := ltail_count b
    by_cases hi : b.type ≠ QueryType.insert
    · simp [buildAssemble, hi, countQ_append, hwc, hoc, hlt, h0, Nat.add_assoc]
    · simp [buildAssemble, hi, h0]

/-- Witness for C1 at a concrete valid configuration. -/
theorem render_placeholder_alignment_witness :
    countQ ("SELECT * FROM users WHERE status = ? LIMIT ?")
      = [Primitive.str ("active"), Primitive.num 20].length :=
  render_placeholder_alignment
    (((BabySQL.select ("users")).where_ ("status") WhereOperator.eq
        (Primitive.str ("active")) Connector.and).limit 20)
    { sql := ("SELECT * FROM users WHERE status = ? LIMIT ?")
      params := [Primitive.str ("active"), Primitive.num 20] }
    (by decide) (by rfl)

/-- Claim C2: render raises an error iff (a) insert/update without a data
payload (MissingPayload) or (b) update/delete with an empty predicate
list and the unsafe flag unset (UnsafeStatement); in every other
configuration render succeeds.  Condition (a) takes priority for update,
matching the source's check order.  (Configuration methods are modelled
as total functions; they cannot raise.) -/
theorem render_error_characterization (b : Builder) :
    ((∃ q, b.build = Except.ok q) ↔ ¬ (missingPayloadCond b ∨ unsafeCond b))
    ∧ (missingPayloadCond b → b.build = Except.error BuildError.missingPayload)
    ∧ (¬ missingPayloadCond b → unsafeCond b →
        b.build = Except.error BuildError.unsafeStatement) := by
  cases ht : b.type <;>
    rcases hd : b._data with _ | d <;>
      rcases hw : b._wheres with _ | ⟨w, ws⟩ <;>
        rcases hu : b._allowUnsafe <;>
          simp [Builder.build, Builder.buildFull, buildHead, buildAssemble,
            missingPayloadCond, unsafeCond, ht, hd, hw, hu]

/-- Witness for C2: an insert with no payload fails with MissingPayload,
and a plain select succeeds. -/
theorem render_error_characterization_witness :
    (BabySQL.insert ("t")).build = Except.error BuildError.missingPayload ∧
    (∃ q, (BabySQL.select ("t")).build = Except.ok q) :=
  ⟨(render_error_characterization (BabySQL.insert ("t"))).2.1 ⟨Or.inl rfl, rfl⟩,
   (render_error_characterization (BabySQL.select ("t"))).1.mpr
     (by simp [missingPayloadCond, unsafeCond, BabySQL.select, newBuilder])⟩

theorem joinSep_space_eq_strJoin (x : String) :
    ∀ l : List String,
      joinSep (" ") (x :: l) = x ++ strJoin (l.map (fun s => (" ") ++ s)) := by
  intro l
  induction l generalizing x with
  | nil => simp [joinSep, strJoin]
  | cons y ys ih =>
    rw [show joinSep (" ") (x :: y :: ys) = (x ++ (" ")) ++ joinSep (" ") (y :: ys)
      from rfl]
    rw [ih y]
    simp [strJoin, String.append_assoc]

theorem whereClause_eq_spec (ws : List WhereFrag) (h : ws ≠ []) :
    whereClause ws = (" WHERE ") ++ specWhereClause ws := by
  cases ws with
  | nil => exact absurd rfl h
  | cons w rest =>
    rw [whereClause, if_pos (by simp), whereParts, joinSep_space_eq_strJoin]
    rw [specWhereClause, List.map_map]
    have hfun : ((fun s => (" ") ++ s) ∘ fun v : WhereFrag =>
          v.connector.render ++ (" ") ++ v.sql)
        = fun v : WhereFrag => (" ") ++ v.connector.render ++ (" ") ++ v.sql := by
      funext v
      simp [Function.comp, String.append_assoc]
    rw [hfun]

/-- Claim C3: for every non-insert builder with a non-empty predicate
list whose render succeeds, the rendered SQL is the statement head
followed by ` WHERE `, the first fragment's SQL verbatim (its connector
ignored), then each subsequent fragment prefixed by its own connector, in
insertion order; the parameters are the head parameters followed by each
fragment's parameters in fragment order, then the limit/offset tail. -/
theorem where_rendering (b : Builder) (sp : String × List Primitive)
    (q : BuiltQuery) (hins : b.type ≠ QueryType.insert) (hw : b._wheres ≠ [])
    (hh : buildHead b = Except.ok sp) (hq : b.build = Except.ok q) :
    q.sql = ((sp.1 ++ ((" WHERE ") ++ specWhereClause b._wheres))
        ++ orderClause b) ++ (ltail b).1
    ∧ q.params = (sp.2 ++ whereParamsOf b._wheres) ++ (ltail b).2 := by
  rw [build_ok b sp hh] at hq
  simp only [Except.ok.injEq] at hq
  subst hq
  rw [buildAssemble, if_pos hins]
  constructor
  · rw [whereClause_eq_spec b._wheres hw]
  · rfl

/-- Witness for C3: a select with two predicates (the second OR-joined). -/
theorem where_rendering_witness :
    ("SELECT * FROM u WHERE a = ? OR b = ?" : String)
      = ((("SELECT * FROM u") ++ ((" WHERE ") ++ specWhereClause
          (((BabySQL.select ("u")).where_ ("a") WhereOperator.eq
              (Primitive.str ("x")) Connector.and).where_ ("b") WhereOperator.eq
              (Primitive.str ("y")) Connector.or)._wheres))
        ++ orderClause (((BabySQL.select ("u")).where_ ("a") WhereOperator.eq
              (Primitive.str ("x")) Connector.and).where_ ("b") WhereOperator.eq
              (Primitive.str ("y")) Connector.or))
        ++ (ltail (((BabySQL.select ("u")).where_ ("a") WhereOperator.eq
              (Primitive.str ("x")) Connector.and).where_ ("b") WhereOperator.eq
              (Primitive.str ("y")) Connector.or)).1
    ∧ ([Primitive.str ("x"), Primitive.str ("y")] : List Primitive)
      = (([] ++ whereParamsOf (((BabySQL.select ("u")).where_ ("a")
              WhereOperator.eq (Primitive.str ("x")) Connector.and).where_ ("b")
              WhereOperator.eq (Primitive.str ("y")) Connector.or)._wheres))
        ++ (ltail (((BabySQL.select ("u")).where_ ("a") WhereOperator.eq
              (Primitive.str ("x")) Connector.and).where_ ("b") WhereOperator.eq
              (Primitive.str ("y")) Connector.or)).2 :=
  where_rendering
    (((BabySQL.select ("u")).where_ ("a") WhereOperator.eq
        (Primitive.str ("x")) Connector.and).where_ ("b") WhereOperator.eq
        (Primitive.str ("y")) Connector.or)
    (("SELECT * FROM u"), [])
    { sql := ("SELECT * FROM u WHERE a = ? OR b = ?")
      params := [Primitive.str ("x"), Primitive.str ("y")] }
    (by decide) (by decide) (by rfl) (by rfl)

/-- Counterexample to Claim C4: with payload keys `name` then `0`
(insertion order), `Object.keys` enumerates the array-index key `"0"`
first, so the column order and parameter slice do NOT follow the
payload's insertion order. -/
theorem insert_key_order_cex :
    Builder.build ((BabySQL.insert ("users")).data
        [(("name"), Primitive.str ("bob")), (("0"), Primitive.num 1)])
      = Except.ok { sql := ("INSERT INTO users (0, name) VALUES (?, ?)")
                    params := [Primitive.num 1, Primitive.str ("bob")] }
    ∧ jsKeys [(("name"), Primitive.str ("bob")), (("0"), Primitive.num 1)]
        ≠ [("name"), ("0")] :=
  ⟨by rfl, by decide⟩

/-- Claim C4 (amended): for insert and update, the column order in the
SQL and the corresponding parameter slice follow the payload's JS
own-property enumeration order (`jsKeys`); this equals the insertion
order whenever no payload key is an array-index string (the keys are
distinct, as they are in any JS object). -/
theorem insert_update_key_order (t : String) (d : List (String × Primitive))
    (hidx : ∀ p ∈ d, canonIndex p.1 = none)
    (hnd : (d.map Prod.fst).Nodup) :
    Builder.build ((BabySQL.insert t).data d) = Except.ok
      { sql := ("INSERT INTO ") ++ t ++ (" (") ++ joinSep (", ") (d.map Prod.fst)
          ++ (") VALUES (")
          ++ joinSep (", ") ((d.map Prod.fst).map (fun _ => ("?"))) ++ (")")
        params := d.map Prod.snd }
    ∧ Builder.build (((BabySQL.update t).data d).allowUnsafe) = Except.ok
      { sql := ("UPDATE ") ++ t ++ (" SET ")
          ++ joinSep (", ") ((d.map Prod.fst).map (fun k => k ++ (" = ?")))
        params := d.map Prod.snd } := by
  have hk : jsKeys d = d.map Prod.fst := jsKeys_no_index hidx
  have hg : (d.map Prod.fst).map (fun k => jsGet d k) = d.map Prod.snd :=
    map_jsGet hnd
  constructor
  · simp [Builder.build, Builder.buildFull, buildHead, buildAssemble,
      BabySQL.insert, newBuilder, Builder.data, hk, hg]
  · simp [Builder.build, Builder.buildFull, buildHead, buildAssemble,
      whereClause, whereParamsOf, concatAll, orderClause, ltail,
      BabySQL.update, newBuilder, Builder.data, Builder.allowUnsafe, hk, hg]

/-- Witness for C4 (amended) at a concrete non-index-keyed payload. -/
theorem insert_update_key_order_witness :
    Builder.build ((BabySQL.insert ("users")).data
        [(("name"), Primitive.str ("bob")), (("age"), Primitive.num 20)])
      = Except.ok
      { sql := ("INSERT INTO ") ++ ("users") ++ (" (")
          ++ joinSep (", ") ([(("name"), Primitive.str ("bob")),
              (("age"), Primitive.num 20)].map Prod.fst)
          ++ (") VALUES (")
          ++ joinSep (", ") (([(("name"), Primitive.str ("bob")),
              (("age"), Primitive.num 20)].map Prod.fst).map (fun _ => ("?")))
          ++ (")")
        params := [(("name"), Primitive.str ("bob")),
            (("age"), Primitive.num 20)].map Prod.snd }
    ∧ Builder.build (((BabySQL.update ("users")).data
        [(("name"), Primitive.str ("bob")), (("age"), Primitive.num 20)]).allowUnsafe)
      = Except.ok
      { sql := ("UPDATE ") ++ ("users") ++ (" SET ")
          ++ joinSep (", ") (([(("name"), Primitive.str ("bob")),
              (("age"), Primitive.num 20)].map Prod.fst).map (fun k => k ++ (" = ?")))
        params := [(("name"), Primitive.str ("bob")),
            (("age"), Primitive.num 20)].map Prod.snd } :=
  insert_update_key_order ("users")
    [(("name"), Primitive.str ("bob")), (("age"), Primitive.num 20)]
    (by decide) (by decide)

/-- Counterexample to Claim C5: at `n = 2^31` the stored limit is `0`,
not `max 0 (trunc n) = 2^31`, because `n | 0` wraps into the signed
32-bit range before the clamp. -/
theorem limit_clamp_cex :
    ((BabySQL.select ("t")).limit 2147483648)._limit = some 0
    ∧ ratTrunc (2147483648 : ℚ) = 2147483648
    ∧ ((some (0 : Int) : Option Int)
        ≠ some (max 0 (ratTrunc (2147483648 : ℚ)))) := by
  refine ⟨by decide, by decide, by decide⟩

/-- Claim C5 (amended): `limit(n)` and `offset(n)` store
`max 0 (n | 0)`; whenever the truncation of `n` toward zero fits in the
signed 32-bit range, this equals `max 0 (trunc n)` — negative values
clamp to zero, fractional values truncate toward zero — and each call
overwrites only its own field. -/
theorem limit_offset_clamp (b : Builder) (n : ℚ)
    (h1 : -2147483648 ≤ ratTrunc n) (h2 : ratTrunc n < 2147483648) :
    (b.limit n)._limit = some (max 0 (ratTrunc n))
    ∧ (b.offset n)._offset = some (max 0 (ratTrunc n))
    ∧ (b.limit n)._offset = b._offset
    ∧ (b.offset n)._limit = b._limit := by
  have hid : jsBitOrZero n = ratTrunc n := by
    simp only [jsBitOrZero, toInt32]
    split
    · omega
    · omega
  refine ⟨?_, ?_, rfl, rfl⟩
  · simp [Builder.limit, hid]
  · simp [Builder.offset, hid]

/-- Witness for C5 (amended) at `n = -5` (clamps to zero). -/
theorem limit_offset_clamp_witness :
    ((BabySQL.select ("t")).limit (-5))._limit = some (max 0 (ratTrunc (-5)))
    ∧ ((BabySQL.select ("t")).offset (-5))._offset = some (max 0 (ratTrunc (-5)))
    ∧ ((BabySQL.select ("t")).limit (-5))._offset = (BabySQL.select ("t"))._offset
    ∧ ((BabySQL.select ("t")).offset (-5))._limit = (BabySQL.select ("t"))._limit :=
  limit_offset_clamp (BabySQL.select ("t")) (-5) (by decide) (by decide)

/-- Counterexample to Claim C6: a count builder with a non-empty order
list renders with no ` ORDER BY ` clause at all (the source emits ORDER
BY only for select). -/
theorem count_order_cex :
    ((BabySQL.count ("users")).orderBy ("id") OrderDirection.desc)._order ≠ []
    ∧ Builder.build ((BabySQL.count ("users")).orderBy ("id") OrderDirection.desc)
        = Except.ok { sql := ("SELECT COUNT(*) AS total FROM users"), params := [] }
    ∧ hasSub ("SELECT COUNT(*) AS total FROM users").data (("ORDER BY").data) = false :=
  ⟨by decide, by rfl, by decide⟩

/-- Claim C6 (amended): for a count-kind builder, predicate clauses still
apply at render (` WHERE ...` with the fragments' parameters), while
order, limit and offset clauses are never appended for count, whatever
the order list, limit and offset hold. -/
theorem count_clauses (b : Builder) (ht : b.type = QueryType.count) :
    b.build = Except.ok
      { sql := ("SELECT COUNT(") ++ b._countColumn ++ (") AS ") ++ b._countAlias
          ++ (" FROM ") ++ b.table ++ whereClause b._wheres
        params := whereParamsOf b._wheres } := by
  have hh : buildHead b = Except.ok
      (("SELECT COUNT(") ++ b._countColumn ++ (") AS ") ++ b._countAlias
        ++ (" FROM ") ++ b.table, []) := by
    simp [buildHead, ht]
  rw [build_ok b _ hh]
  simp [buildAssemble, ht, orderClause, ltail, whereParamsOf]

/-- Witness for C6 (amended): a count builder with an order entry and a
limit set still renders only head and WHERE. -/
theorem count_clauses_witness :
    Builder.build ((((BabySQL.count ("users")).where_ ("status") WhereOperator.eq
        (Primitive.str ("active")) Connector.and).orderBy ("id")
        OrderDirection.desc).limit 20)
      = Except.ok
      { sql := ("SELECT COUNT(")
          ++ ((((BabySQL.count ("users")).where_ ("status") WhereOperator.eq
              (Primitive.str ("active")) Connector.and).orderBy ("id")
              OrderDirection.desc).limit 20)._countColumn
          ++ (") AS ")
          ++ ((((BabySQL.count ("users")).where_ ("status") WhereOperator.eq
              (Primitive.str ("active")) Connector.and).orderBy ("id")
              OrderDirection.desc).limit 20)._countAlias
          ++ (" FROM ")
          ++ ((((BabySQL.count ("users")).where_ ("status") WhereOperator.eq
              (Primitive.str ("active")) Connector.and).orderBy ("id")
              OrderDirection.desc).limit 20).table
          ++ whereClause ((((BabySQL.count ("users")).where_ ("status")
              WhereOperator.eq (Primitive.str ("active")) Connector.and).orderBy
              ("id") OrderDirection.desc).limit 20)._wheres
        params := whereParamsOf ((((BabySQL.count ("users")).where_ ("status")
            WhereOperator.eq (Primitive.str ("active")) Connector.and).orderBy
            ("id") OrderDirection.desc).limit 20)._wheres } :=
  count_clauses
    ((((BabySQL.count ("users")).where_ ("status") WhereOperator.eq
        (Primitive.str ("active")) Connector.and).orderBy ("id")
        OrderDirection.desc).limit 20)
    (by rfl)

/-- Claim C7: `whereIn` with an empty value sequence appends a fragment
whose SQL is the literal `1=0` with zero parameters, for every receiver,
column name and connector, never an empty IN-list. -/
theorem whereIn_empty_fragment (b : Builder) (col : String) (conn : Connector) :
    (b.whereIn col [] conn)._wheres
      = b._wheres ++ [{ sql := ("1=0"), params := [], connector := conn }] := by
  simp [Builder.whereIn]

/-- Claim C8: render is idempotent and does not mutate builder state: the
builder returned by `build` is the receiver itself, and rendering again
from that state yields the identical result (sql and params alike). -/
theorem render_idempotent (b : Builder) :
    (b.buildFull).2.2 = b
    ∧ ((b.buildFull).2.2).buildFull.1 = (b.buildFull).1 := by
  have h1 : (b.buildFull).2.2 = b := by
    rcases hh : buildHead b with e | sp
    · rw [buildFull_error b e hh]
    · rw [buildFull_ok b sp hh]
  exact ⟨h1, by rw [h1]⟩

/-- Claim C9: the debug flag never affects the returned value: rendering
with the flag set returns exactly the pair rendered with it unset (the
diagnostic lines are a side channel only). -/
theorem debug_noninterference (b : Builder) :
    ((b.debug true).buildFull).1 = ((b.debug false).buildFull).1 := by
  have hh : buildHead (b.debug true) = buildHead (b.debug false) := rfl
  have ha : ∀ sp, buildAssemble (b.debug true) sp = buildAssemble (b.debug false) sp :=
    fun _ => rfl
  rcases he : buildHead (b.debug false) with e | sp
  · rw [Builder.buildFull, Builder.buildFull, hh, he]
  · rw [Builder.buildFull, Builder.buildFull, hh, he]
    simp [ha sp]

/-- Claim C10: the always-false `1=0` fragment from `whereIn` with an
empty list satisfies the unsafe gate: delete (and update, with any
payload) renders successfully without `allowUnsafe`, e.g.
`DELETE FROM t WHERE 1=0` with no parameters. -/
theorem empty_in_defuses_unsafe_gate (t col : String) (conn : Connector)
    (d : List (String × Primitive)) :
    Builder.build ((BabySQL.delete t).whereIn col [] conn)
      = Except.ok { sql := ("DELETE FROM ") ++ t ++ (" WHERE 1=0"), params := [] }
    ∧ Builder.build (((BabySQL.update t).data d).whereIn col [] conn)
      = Except.ok
        ⟨("UPDATE ") ++ t ++ (" SET ")
          ++ joinSep (", ") ((jsKeys d).map (fun k => k ++ (" = ?")))
          ++ (" WHERE 1=0"),
         (jsKeys d).map (fun k => jsGet d k)⟩ := by
  have hW : whereClause [⟨("1=0"), [], conn⟩] = (" WHERE 1=0") := by
    rw [whereClause, if_pos (by simp)]
    rfl
  constructor
  · simp [Builder.build, Builder.buildFull, buildHead, buildAssemble,
      BabySQL.delete, newBuilder, Builder.whereIn, orderClause, ltail,
      whereParamsOf, concatAll, hW]
  · simp [Builder.build, Builder.buildFull, buildHead, buildAssemble,
      BabySQL.update, newBuilder, Builder.data, Builder.whereIn, orderClause,
      ltail, whereParamsOf, concatAll, hW, String.append_assoc]
